import Mathlib

/-!
Verification development for `app_eph_trimestres.py` (Calculadora EPH, todos
los trimestres, v2).

The Python source is shallowly embedded.  A pandas DataFrame of integer-coded
survey columns becomes `Frame` (a row count plus named integer columns), so
`pd.to_numeric(col, errors="coerce")` is the identity on these all-numeric
columns; pandas/NumPy aggregations become explicit list computations over
`List Int`; fallible steps return `Option` (so totality of the Lean
functions witnesses that the Python never raises on these paths).
`strLower` stands in for `str.lower` (per-character lowering; every alias
list in the program is ASCII).  CPython float formatting is modelled on
exact rationals with round-half-to-even.  Sorting is modelled by a stable
insertion sort (`sortLe`), which agrees with the sorts pandas performs
(`sort_index`, `mode`) on the orderings used here.
-/

/-- A loaded table: `nrows` models `len(df)`; `cols` the named columns.
Cell values are the integer survey codes the analyzers coerce with
`pd.to_numeric`. -/
structure Frame where
  nrows : Nat
  cols : List (String × List Int)
  deriving DecidableEq

/-- Column names of the frame, models `df.columns`. -/
def Frame.columns (df : Frame) : List String :=
  df.cols.map Prod.fst

/-- Data of a named column, models `df[c]` for a name found by
`get_first_col` (which only returns names occurring in `df.columns`). -/
def Frame.getCol (df : Frame) (c : String) : List Int :=
  (df.cols.lookup c).getD []

/-- Per-character lowering; models `str.lower()` (ASCII-complete, which
covers every alias list in the source). -/
def strLower (s : String) : String := String.mk (s.data.map Char.toLower)

/-- Code-point lexicographic `≤` on strings, the order Python uses to compare
`str` keys (e.g. in `sort_index`). -/
def strLe (a b : String) : Bool := charListLe a.data b.data
  where charListLe : List Char → List Char → Bool
  | [], _ => true
  | _ :: _, [] => false
  | x :: xs, y :: ys =>
    if x.val < y.val then true
    else if y.val < x.val then false
    else charListLe xs ys

/-- Insert into a sorted list, keeping existing elements first on ties
(stability). -/
def insertLe {α : Type} (le : α → α → Bool) (x : α) : List α → List α
  | [] => [x]
  | y :: ys => if le x y then x :: y :: ys else y :: insertLe le x ys

/-- Stable sort by the boolean relation `le`. -/
def sortLe {α : Type} (le : α → α → Bool) : List α → List α
  | [] => []
  | x :: xs => insertLe le x (sortLe le xs)

/-- `get_first_col(df, candidates)` from the source: for each candidate in
order, first check verbatim membership among the column names, then compare
case-insensitively against every actual column name; `None` when no
candidate matches either way. -/
def get_first_col (cols : List String) : List String → Option String
  | [] => none
  | c :: rest =>
    if cols.contains c then some c
    else
      match cols.find? (fun col => strLower col == strLower c) with
      | some col => some col
      | none => get_first_col cols rest

/-- Modelled from the spec's words, for comparison with `get_first_col`: a
first full verbatim pass over the whole alias list, and only if that pass
fails a second full case-insensitive pass. -/
def get_first_col_twopass (cols cands : List String) : Option String :=
  match cands.find? (fun c => cols.contains c) with
  | some c => some c
  | none => cands.findSome? (fun c => cols.find? (fun col => strLower col == strLower c))

namespace Cols

def SEXO : List String := ["CH04", "SEXO"]

def EDAD : List String := ["CH06", "EDAD"]

def NIVEL_ED : List String := ["NIVEL_ED", "NIVEL_EDUC", "NIVEL_EDUCATIVO", "EDUC_NIVEL"]

def COND_ACT : List String := ["ESTADO", "COND_ACT", "CONDICION_ACT", "CAT_OCUP"]

def TIC_PC : List String := ["TIP_III_04", "USO_PC", "PC_USO"]

def TIC_INTERNET : List String := ["TIP_III_06", "USO_INTERNET", "INTERNET_USO"]

end Cols

/-- `pick(df, options)` from the source. -/
def pick (df : Frame) (options : List String) : Option String :=
  get_first_col df.columns options

/-- `pd.Series.mode().iloc[0]` wrapped in the source's try/except: the
smallest value attaining the maximal multiplicity, `none` on an empty
column (where `iloc[0]` would raise and the source keeps `None`). -/
def mode? (xs : List Int) : Option Int :=
  match xs with
  | [] => none
  | _ :: _ =>
    let m := (xs.map (fun v => xs.count v)).foldr Nat.max 0
    (sortLe (fun a b => decide (a ≤ b)) xs).find? (fun v => xs.count v == m)

/-- Candidate alias list for the year column in `detect_year_quarter`. -/
def year_aliases : List String := ["ANO4", "ANO", "AÑO", "YEAR", "ANIO", "ANIO4"]

/-- Candidate alias list for the quarter column in `detect_year_quarter`. -/
def quarter_aliases : List String := ["TRIMESTRE", "TRIM", "TRIMES", "QUARTER"]

/-- Matches the regex `20\d{2}` at the head of the character list, returning
the four-digit year. -/
def year_at (cs : List Char) : Option Int :=
  match cs with
  | '2' :: '0' :: c :: d :: _ =>
    if c.isDigit && d.isDigit then
      some (2000 + 10 * ((c.toNat : Int) - 48) + ((d.toNat : Int) - 48))
    else none
  | _ => none

/-- Leftmost match of `re.search(r"(20\d{2})", name)`. -/
def find_year_scan : List Char → Option Int
  | [] => none
  | c :: rest =>
    match year_at (c :: rest) with
    | some y => some y
    | none => find_year_scan rest

def find_year_in_name (name : String) : Option Int :=
  find_year_scan name.data

/-- The capture group `(1|2|3|4)` of the quarter regex. -/
def quarter_digit (c : Char) : Option Int :=
  if c = '1' then some 1
  else if c = '2' then some 2
  else if c = '3' then some 3
  else if c = '4' then some 4
  else none

/-- Case-insensitively strip the (lowercase) word `w` from the front of
`cs`, returning the remainder. -/
def stripWordCI : List Char → List Char → Option (List Char)
  | [], cs => some cs
  | _ :: _, [] => none
  | w :: ws, c :: cs => if c.toLower = w then stripWordCI ws cs else none

/-- The regex word boundary `\b` placed after a word character: satisfied at
end of input or before a non-word character (ASCII `\w`, enough for the file
names considered). -/
def boundaryAfter (cs : List Char) : Bool :=
  match cs with
  | [] => true
  | c :: _ => !(c.isAlphanum || c == '_')

/-- The part of the quarter regex after the captured digit:
`\s*(?:t|tri|trim|trimestre)\b`, case-insensitive.  Alternation order does
not affect acceptance here because only the boundary follows. -/
def quarter_tail (cs : List Char) : Bool :=
  let cs := cs.dropWhile (fun c => c.isWhitespace)
  [['t'], ['t','r','i'], ['t','r','i','m'],
   ['t','r','i','m','e','s','t','r','e']].any
    (fun w =>
      match stripWordCI w cs with
      | some rest => boundaryAfter rest
      | none => false)

/-- One attempt of the quarter regex at a fixed start position: first the
`^` branch (start of string only), then the `[^\d]` branch which consumes
one non-digit character before the captured digit. -/
def quarter_match_at (atStart : Bool) (cs : List Char) : Option Int :=
  let hat : Option Int :=
    if atStart then
      match cs with
      | c :: rest =>
        match quarter_digit c with
        | some q => if quarter_tail rest then some q else none
        | none => none
      | [] => none
    else none
  match hat with
  | some q => some q
  | none =>
    match cs with
    | c :: d :: rest =>
      if c.isDigit then none
      else
        match quarter_digit d with
        | some q => if quarter_tail rest then some q else none
        | none => none
    | _ => none

/-- Leftmost match of
`re.search(r"(?:^|[^\d])(1|2|3|4)\s*(?:t|tri|trim|trimestre)\b", name, re.I)`. -/
def find_quarter_scan : Bool → List Char → Option Int
  | _, [] => none
  | atStart, c :: rest =>
    match quarter_match_at atStart (c :: rest) with
    | some q => some q
    | none => find_quarter_scan false rest

def find_quarter_in_name (name : String) : Option Int :=
  find_quarter_scan true name.data

/-- `detect_year_quarter(df, fallback_name)` from the source. -/
def detect_year_quarter (df : Frame) (fallback_name : String) : Option Int × Option Int :=
  let year_col := get_first_col df.columns year_aliases
  let q_col := get_first_col df.columns quarter_aliases
  let anio := year_col.bind (fun c => mode? (df.getCol c))
  let tri := q_col.bind (fun c => mode? (df.getCol c))
  if anio.isNone || tri.isNone then
    let anio := if anio.isNone then find_year_in_name fallback_name else anio
    let tri := if tri.isNone then find_quarter_in_name fallback_name else tri
    (anio, tri)
  else
    (anio, tri)

def MAP_SEXO : List (Int × String) := [(1, "Varón"), (2, "Mujer")]

def MAP_NIVEL_ED : List (Int × String) :=
  [(1, "Sin instrucción"),
   (2, "Primaria incompleta"),
   (3, "Primaria completa"),
   (4, "Secundaria incompleta"),
   (5, "Secundaria completa"),
   (6, "Terciario/Universitario incompleto"),
   (7, "Terciario/Universitario completo")]

def MAP_COND_ACT : List (Int × String) :=
  [(0, "No corresponde / NR"),
   (1, "Ocupado/a"),
   (2, "Desocupado/a"),
   (3, "Inactivo/a"),
   (4, "Menor de 10 años"),
   (9, "Ns/Nc")]

def MAP_BIN_TIC : List (Int × String) := [(0, "No"), (1, "Sí"), (2, "Ns/Nc")]

/-- Label of one cell in `value_counts_labeled`: `s_num.map(mapping)` and,
where the mapping misses, the cell's own string representation
(`s.astype(str)` on an integer cell). -/
def labelWithMapping (mapping : List (Int × String)) (v : Int) : String :=
  match mapping.lookup v with
  | some lab => lab
  | none => toString v

/-- `value_counts(dropna=False).sort_index().to_dict()` on a list of labels:
occurrence counts keyed by label, keys in ascending code-point order. -/
def tallySortedByKey (labels : List String) : List (String × Nat) :=
  (sortLe strLe labels.dedup).map (fun l => (l, labels.count l))

/-- `value_counts_labeled(series, mapping)` from the source, on an
integer-coded column (so `pd.to_numeric(..., errors="ignore"/"coerce")` is
the identity and no cell is NaN). -/
def value_counts_labeled (mapping : List (Int × String)) (col : List Int) : List (String × Nat) :=
  tallySortedByKey (col.map (labelWithMapping mapping))

/-- The sex branch of `analyze_individuals`:
`v.map(MAP_SEXO).fillna("Otro/NR")` on one cell. -/
def sexLabel (v : Int) : String :=
  (MAP_SEXO.lookup v).getD "Otro/NR"

/-- `v.map(MAP_SEXO).fillna("Otro/NR").value_counts(dropna=False).to_dict()`:
counts of sex labels, ordered by descending count (the tally is built
key-ascending, then stably reordered by count).  No theorem below depends on
the order of this association list, only on its entries. -/
def sexo_counts_of (col : List Int) : List (String × Nat) :=
  sortLe (fun a b => Nat.ble b.2 a.2) (tallySortedByKey (col.map sexLabel))

/-- The eight age-bucket labels of `analyze_individuals`, in categorical
order. -/
def age_labels : List String :=
  ["0-4", "5-12", "13-18", "19-30", "31-45", "46-60", "61-75", "75+"]

/-- `pd.cut(v, bins=[0,5,12,18,30,45,60,75,120], labels=..., right=True,
include_lowest=True)` on one cell: the label of the half-open interval
`(lo, hi]` containing `v`, the first interval closed below as well;
`none` (NaN) outside `[0, 120]`. -/
def bucketOf (v : Int) : Option String :=
  if 0 ≤ v ∧ v ≤ 5 then some "0-4"
  else if 5 < v ∧ v ≤ 12 then some "5-12"
  else if 12 < v ∧ v ≤ 18 then some "13-18"
  else if 18 < v ∧ v ≤ 30 then some "19-30"
  else if 30 < v ∧ v ≤ 45 then some "31-45"
  else if 45 < v ∧ v ≤ 60 then some "46-60"
  else if 60 < v ∧ v ≤ 75 then some "61-75"
  else if 75 < v ∧ v ≤ 120 then some "75+"
  else none

/-- `cat.value_counts(dropna=False).sort_index().to_dict()` on the age
buckets: every categorical label with its count (zero included) in
categorical order, followed by the NaN bucket when out-of-range values
exist (its float-NaN dict key is rendered here as `"nan"`). -/
def edad_tramos_of (col : List Int) : List (String × Nat) :=
  age_labels.map (fun lb => (lb, col.countP (fun v => bucketOf v == some lb)))
    ++ (let nanCount := col.countP (fun v => (bucketOf v).isNone)
        if nanCount = 0 then [] else [("nan", nanCount)])

/-- `float(np.nanmean(v))` guarded by `v.notna().any()`: the exact mean of a
nonempty integer column (`mkRat` keeps the arithmetic kernel-computable). -/
def meanList (l : List Int) : Option Rat :=
  match l with
  | [] => none
  | _ :: _ => some (mkRat (l.foldl (· + ·) 0) l.length)

/-- `float(np.nanmedian(v))` guarded by `v.notna().any()`: middle element of
the sorted column, or the average of the two middle elements. -/
def medianList (l : List Int) : Option Rat :=
  match l with
  | [] => none
  | _ :: _ =>
    let s := sortLe (fun a b => decide (a ≤ b)) l
    let n := s.length
    if n % 2 = 1 then (s[n / 2]?).map (fun v => mkRat v 1)
    else
      match s[n / 2 - 1]?, s[n / 2]? with
      | some a, some b => some (mkRat (a + b) 2)
      | _, _ => none

/-- The `tic` sub-dict of the individuals result; a missing dict key is
modelled as `none`. -/
structure TicRes where
  uso_pc_counts : Option (List (String × Nat))
  uso_internet_counts : Option (List (String × Nat))
  deriving DecidableEq

/-- The result dict of `analyze_individuals`; every key the source can set
is a field here, `none` modelling Python `None`. -/
structure IndRes where
  N_individuos : Nat
  sexo_counts : Option (List (String × Nat))
  edad_media : Option Rat
  edad_p50 : Option Rat
  edad_tramos : Option (List (String × Nat))
  nivel_educativo_counts : Option (List (String × Nat))
  actividad_counts : Option (List (String × Nat))
  tic : Option TicRes
  deriving DecidableEq

/-- The result dict of `analyze_households`. -/
structure HogRes where
  N_hogares : Nat
  ingreso_hogar_media : Option Rat
  ingreso_hogar_p50 : Option Rat
  deriving DecidableEq

/-- `analyze_individuals(df_ind)` from the source. -/
def analyze_individuals (df : Frame) : IndRes :=
  let sexo_col := pick df Cols.SEXO
  let edad_col := pick df Cols.EDAD
  let nivel_col := pick df Cols.NIVEL_ED
  let cond_col := pick df Cols.COND_ACT
  let pc_col := pick df Cols.TIC_PC
  let int_col := pick df Cols.TIC_INTERNET
  { N_individuos := df.nrows
    sexo_counts := sexo_col.map (fun c => sexo_counts_of (df.getCol c))
    edad_media := edad_col.bind (fun c => meanList (df.getCol c))
    edad_p50 := edad_col.bind (fun c => medianList (df.getCol c))
    edad_tramos := edad_col.map (fun c => edad_tramos_of (df.getCol c))
    nivel_educativo_counts :=
      nivel_col.map (fun c => value_counts_labeled MAP_NIVEL_ED (df.getCol c))
    actividad_counts :=
      cond_col.map (fun c => value_counts_labeled MAP_COND_ACT (df.getCol c))
    tic :=
      if pc_col.isSome || int_col.isSome then
        some { uso_pc_counts := pc_col.map (fun c => value_counts_labeled MAP_BIN_TIC (df.getCol c))
               uso_internet_counts := int_col.map (fun c => value_counts_labeled MAP_BIN_TIC (df.getCol c)) }
      else none }

/-- Income-column candidates of `analyze_households`. -/
def ing_candidates : List String :=
  ["ITF", "INGTOT", "INGRESO_TOTAL", "ING_HOGAR", "P47T", "INGTRIM"]

/-- `analyze_households(df_hog)` from the source. -/
def analyze_households (df : Frame) : HogRes :=
  let inc_col := pick df ing_candidates
  { N_hogares := df.nrows
    ingreso_hogar_media := inc_col.bind (fun c => meanList (df.getCol c))
    ingreso_hogar_p50 := inc_col.bind (fun c => medianList (df.getCol c)) }

/-- Round `q * scale` to the nearest integer, ties to even — how CPython's
`format` rounds the (exact-decimal) values exercised below.  Computed on
numerator and denominator with integer floor division so that it reduces in
the kernel. -/
def roundHalfEvenScaled (q : Rat) (scale : Nat) : Int :=
  let n := q.num * scale
  let d := (q.den : Int)
  let f := n.fdiv d
  let r := n.fmod d
  if 2 * r < d then f
  else if d < 2 * r then f + 1
  else if f % 2 = 0 then f else f + 1

/-- Insert a `'.'` after every three digits of a reversed digit list; the
grouping done by `f"{x:,}"` followed by the source's `replace(",", ".")`. -/
def groupRev : List Char → List Char
  | a :: b :: c :: d :: rest => a :: b :: c :: '.' :: groupRev (d :: rest)
  | ds => ds

/-- The integer branch of `fmt_num`: `f"{x:,}".replace(",", ".")`. -/
def fmt_int (n : Int) : String :=
  (if n < 0 then "-" else "") ++ String.mk ((groupRev (toString n.natAbs).data.reverse).reverse)

/-- The float branch of `fmt_num`:
`f"{x:,.{nd}f}".replace(",", "X").replace(".", ",").replace("X", ".")` —
thousands grouped with `'.'`, decimal comma. -/
def fmt_float (q : Rat) (nd : Nat) : String :=
  let scaled := roundHalfEvenScaled q (10 ^ nd)
  let a := scaled.natAbs
  let p : Nat := 10 ^ nd
  let ip := String.mk ((groupRev (toString (a / p)).data.reverse).reverse)
  let fpRaw := toString (a % p)
  let fp := String.mk (List.replicate (nd - fpRaw.length) '0') ++ fpRaw
  (if scaled < 0 then "-" else "") ++ ip ++ (if nd = 0 then "" else "," ++ fp)

/-- `fmt_num` applied to an optional integer (the `None` branch returns the
missing-value token `"s/d"`). -/
def fmt_num_i (x : Option Int) : String :=
  match x with
  | none => "s/d"
  | some n => fmt_int n

/-- `fmt_num` applied to an optional float with `nd` decimals. -/
def fmt_num_f (x : Option Rat) (nd : Nat) : String :=
  match x with
  | none => "s/d"
  | some q => fmt_float q nd

/-- A plain `f"{x:.1f}"` (no grouping, decimal point), as used for the
percentage shares in `build_conclusions`.  The shares are nonnegative, so
Python's negative zero cannot arise. -/
def fmt_fixed1 (q : Rat) : String :=
  let n := roundHalfEvenScaled q 10
  let a := n.natAbs
  (if n < 0 then "-" else "") ++ toString (a / 10) ++ "." ++ toString (a % 10)

/-- The report metadata consumed by `build_conclusions` (`meta.get('anio')`,
`meta.get('trimestre')`). -/
structure Meta where
  anio : Option Int
  trimestre : Option Int
  deriving DecidableEq

/-- `d.get(k, 0)` on a counts dict. -/
def lookupD (d : List (String × Nat)) (k : String) : Nat :=
  (d.lookup k).getD 0

/-- Sum of the counts of a dict, `sum(d.values())`. -/
def sumVals (d : List (String × Nat)) : Nat :=
  (d.map Prod.snd).sum

/-- `max(d, key=d.get)`: the first key attaining the maximal count (later
keys replace the running best only on a strictly greater count), `none` on
an empty dict (where the source guards with `if d else None`). -/
def argmaxFirst (d : List (String × Nat)) : Option String :=
  match d with
  | [] => none
  | p :: rest => some ((rest.foldl (fun best q => if q.2 > best.2 then q else best) p).1)

/-- The share pattern of `build_conclusions`:
`100 * (d.get(k, 0) / (sum(d.values()) or 1))`, in exact rational
arithmetic (kernel-computable via `mkRat`). -/
def share_of (d : List (String × Nat)) (k : String) : Rat :=
  mkRat (100 * (lookupD d k : Int)) (if sumVals d = 0 then 1 else sumVals d)

def intro_line : String :=
  "El presente apartado sintetiza hallazgos clave y sugiere implicancias para política pública y gestión institucional."

def meta_line (m : Meta) (total_hog total_ind : Nat) : String :=
  "En el " ++ fmt_num_i m.trimestre ++ "º trimestre de " ++ fmt_num_i m.anio
    ++ " se procesaron " ++ fmt_int (total_hog : Int) ++ " hogares y "
    ++ fmt_int (total_ind : Int) ++ " individuos."

def sexo_line (share_mujer share_varon : Rat) : String :=
  "La estructura por sexo es relativamente equilibrada: " ++ fmt_fixed1 share_mujer
    ++ "% mujeres y " ++ fmt_fixed1 share_varon
    ++ "% varones, sin desbalances extremos a nivel agregado."

def edad_line (t : String) : String :=
  "El tramo etario con mayor peso es " ++ t
    ++ ", lo que sugiere que la demanda de servicios y políticas debe contemplar necesidades específicas de ese grupo."

def educ_line (e : String) : String :=
  "En educación, predomina el nivel \"" ++ e
    ++ "\", indicador del perfil de capital humano de la muestra. Este patrón condiciona la inserción laboral y las trayectorias de movilidad social."

def actividad_line (so sd si : Rat) : String :=
  "En el mercado de trabajo, se observa una tasa relativa de ocupación aproximada de "
    ++ fmt_fixed1 so ++ "%, desocupación de " ++ fmt_fixed1 sd
    ++ "% e inactividad de " ++ fmt_fixed1 si
    ++ "%. Estos valores orientan la priorización de programas de empleabilidad y formación."

def tic_line (s : Rat) : String :=
  "Respecto de la inclusión digital, el " ++ fmt_fixed1 s
    ++ "% declara usar Internet. Aun así, persisten brechas que tienden a concentrarse en hogares con menores ingresos y menor nivel educativo."

def recomendaciones_line : String :=
  "Recomendaciones: (i) fortalecer estrategias de terminalidad educativa en niveles medio y superior; (ii) articular políticas activas de empleo con formación en habilidades digitales; (iii) priorizar conectividad significativa y acceso a dispositivos en hogares vulnerables; (iv) monitorear periódicamente estos indicadores por trimestre para detectar cambios de tendencia."

/-- The successive `lines.append(...)` of `build_conclusions`, in order.
Python truthiness is made explicit: `sexo_counts or {}` is `getD []`,
`sum(...) or 1` is the zero guard, `if tramo_top:` holds exactly when the
tramos dict is nonempty (labels are nonempty strings), `if ind_res.get("tic")`
holds when the sub-dict exists, and `if tic.get("uso_internet_counts"):`
additionally requires a nonempty counts dict. -/
def build_conclusions_lines (hog_res : HogRes) (ind_res : IndRes) (meta : Meta) : List String :=
  let total_ind := ind_res.N_individuos
  let total_hog := hog_res.N_hogares
  let sexo := ind_res.sexo_counts.getD []
  let share_mujer : Rat := share_of sexo "Mujer"
  let share_varon : Rat := share_of sexo "Varón"
  let tramos := ind_res.edad_tramos.getD []
  let tramo_top := argmaxFirst tramos
  let ed := ind_res.nivel_educativo_counts.getD []
  let top_ed := argmaxFirst ed
  let act := ind_res.actividad_counts.getD []
  let share_ocup : Rat := share_of act "Ocupado/a"
  let share_desoc : Rat := share_of act "Desocupado/a"
  let share_inac : Rat := share_of act "Inactivo/a"
  let lines := [intro_line, meta_line meta total_hog total_ind,
                sexo_line share_mujer share_varon]
  let lines := lines ++ (match tramo_top with
    | some t => [edad_line t]
    | none => [])
  let lines := lines ++ (match top_ed with
    | some e => [educ_line e]
    | none => [])
  let lines := lines ++ [actividad_line share_ocup share_desoc share_inac]
  let lines := lines ++ (match ind_res.tic with
    | some tic =>
      match tic.uso_internet_counts with
      | some u =>
        if u.isEmpty then []
        else [tic_line (share_of u "Sí")]
      | none => []
    | none => [])
  lines ++ [recomendaciones_line]

/-- `build_conclusions` returns the lines joined with newlines. -/
def build_conclusions (hog_res : HogRes) (ind_res : IndRes) (meta : Meta) : String :=
  String.intercalate "\n" (build_conclusions_lines hog_res ind_res meta)

/-- The three paragraphs of report section 2 (`build_report`, Hogares). -/
def hog_section_lines (hog_res : HogRes) : List String :=
  ["Cantidad de hogares: " ++ fmt_num_i (some (hog_res.N_hogares : Int)),
   "Ingreso total del hogar (media): " ++ fmt_num_f hog_res.ingreso_hogar_media 2,
   "Ingreso total del hogar (mediana): " ++ fmt_num_f hog_res.ingreso_hogar_p50 2]

/-- The four delimiter candidates of `_read_table`, in source order. -/
def sep_candidates : List Char := [',', ';', '\t', '|']

/-- `text.splitlines()[0] if text else ""`: the text up to the first line
terminator. -/
def first_line (text : String) : String :=
  if text = "" then ""
  else String.mk (text.data.takeWhile (fun c => !(c == '\n' || c == '\r')))

/-- The delimiter choice of `_read_table`:
`counts = {s: first_line.count(s) for s in sep_candidates};`
`sep = max(counts, key=counts.get) if counts else ","` — Python's `max`
keeps the earliest key on ties (it replaces only on a strictly greater
count), and `counts` is never empty. -/
def sniff_sep (text : String) : Char :=
  let fl := first_line text
  let counts := sep_candidates.map (fun s => (s, fl.data.count s))
  match counts with
  | [] => ','
  | p :: rest => (rest.foldl (fun best q => if q.2 > best.2 then q else best) p).1

/-- The maximal candidate count on the first line. -/
def maxSepCount (text : String) : Nat :=
  (sep_candidates.map (fun s => (first_line text).data.count s)).foldr Nat.max 0

/-- The app wiring at the bottom of the source:
`anio = anio_h if anio_h is not None else anio_i;`
`if anio is None: anio = anio_i;`
`tri = tri_h if tri_h is not None else tri_i` — how the two tables'
detections are merged into the report metadata. -/
def combine_year_quarter (h i : Option Int × Option Int) : Option Int × Option Int :=
  let anio := if h.1.isSome then h.1 else i.1
  let anio := if anio.isNone then i.1 else anio
  let tri := if h.2.isSome then h.2 else i.2
  (anio, tri)

/-! ### Helper lemmas -/

theorem mem_insertLe {α : Type} (le : α → α → Bool) (x a : α) :
    ∀ l : List α, a ∈ insertLe le x l ↔ a = x ∨ a ∈ l
  | [] => by simp [insertLe]
  | y :: ys => by
    simp only [insertLe]
    split
    · exact List.mem_cons
    · rw [List.mem_cons, mem_insertLe le x a ys, List.mem_cons]
      tauto

theorem mem_sortLe {α : Type} (le : α → α → Bool) (a : α) :
    ∀ l : List α, a ∈ sortLe le l ↔ a ∈ l
  | [] => by simp [sortLe]
  | x :: xs => by
    simp [sortLe, mem_insertLe, mem_sortLe le a xs]

theorem mem_tallySortedByKey (labels : List String) (l : String) (h : l ∈ labels) :
    (l, labels.count l) ∈ tallySortedByKey labels := by
  unfold tallySortedByKey
  exact List.mem_map_of_mem _ ((mem_sortLe _ _ _).2 (List.mem_dedup.2 h))

theorem count_le_count_map (f : Int → String) (code : Int) :
    ∀ col : List Int, col.count code ≤ (col.map f).count (f code) := by
  intro col
  induction col with
  | nil => simp
  | cons x xs ih =>
    simp only [List.map_cons, List.count_cons]
    by_cases hx : x = code
    · have h1 : (x == code) = true := beq_iff_eq.2 hx
      have h2 : (f x == f code) = true := beq_iff_eq.2 (by rw [hx])
      simp [h1, h2]
      omega
    · have h1 : (x == code) = false := beq_eq_false_iff_ne.2 hx
      simp only [h1]
      simp
      split <;> omega

/-! ### C1 — Schema Resolver pass structure -/

/-- C1 (counterexample): `get_first_col` is not the claimed two-pass
resolver.  On columns `["sexo", "CH04"]` with aliases `["SEXO", "CH04"]` the
code returns the case-insensitive match `"sexo"` of the earlier alias, while
the claimed two full passes would return the verbatim match `"CH04"` of the
later alias. -/
theorem get_first_col_not_two_pass :
    get_first_col ["sexo", "CH04"] ["SEXO", "CH04"] = some "sexo"
    ∧ get_first_col_twopass ["sexo", "CH04"] ["SEXO", "CH04"] = some "CH04"
    ∧ get_first_col ["sexo", "CH04"] ["SEXO", "CH04"]
        ≠ get_first_col_twopass ["sexo", "CH04"] ["SEXO", "CH04"] := by
  refine ⟨by decide, by decide, by decide⟩

/-- C1 (amended): resolution interleaves the two checks per alias — for each
alias in order, the verbatim check and then the case-insensitive check run
before the next alias is considered; consequently, whenever an alias with no
verbatim match has a case-insensitive match, that match is returned no
matter what later aliases would match verbatim. -/
theorem get_first_col_earlier_ci_beats_later_exact
    (cols : List String) :
    ∀ (pre : List String) (c : String) (rest : List String) (col : String),
      (∀ a ∈ pre, cols.contains a = false
          ∧ cols.find? (fun x => strLower x == strLower a) = none) →
      cols.contains c = false →
      cols.find? (fun x => strLower x == strLower c) = some col →
      get_first_col cols (pre ++ c :: rest) = some col := by
  intro pre
  induction pre with
  | nil =>
    intro c rest col _ hex hci
    simp only [List.nil_append, get_first_col, hex, Bool.false_eq_true, if_false, hci]
  | cons a as ih =>
    intro c rest col hpre hex hci
    have ha := hpre a (by simp)
    simp only [List.cons_append, get_first_col, ha.1, ha.2, Bool.false_eq_true, if_false]
    exact ih c rest col (fun b hb => hpre b (by simp [hb])) hex hci

/-- C1 (witness): the amended theorem applied at the counterexample input. -/
theorem get_first_col_earlier_ci_beats_later_exact_witness :
    get_first_col ["sexo", "CH04"] ["SEXO", "CH04"] = some "sexo" :=
  get_first_col_earlier_ci_beats_later_exact ["sexo", "CH04"] [] "SEXO" ["CH04"] "sexo"
    (by simp) (by decide) (by decide)

/-! ### C2 — out-of-domain codes -/

/-- C2 (counterexample): in the sex field, the out-of-domain code `3` is not
preserved under its own string representation `"3"`; it is relabelled to the
fixed label `"Otro/NR"` (the `fillna` branch of `analyze_individuals`). -/
theorem sexo_out_of_domain_relabelled :
    sexo_counts_of [3] = [("Otro/NR", 1)]
    ∧ (sexo_counts_of [3]).lookup "3" = none := by
  refine ⟨by decide, by decide⟩

/-- C2 (amended): for the fields counted through `value_counts_labeled`
(education level, activity status, technology flags), every code outside the
mapping's domain appears in the count result under its own string
representation, with a count at least its number of occurrences (never
dropped); for the sex field, out-of-domain codes are instead tallied under
the fixed label `"Otro/NR"`. -/
theorem out_of_domain_codes_preserved_except_sexo :
    (∀ (mapping : List (Int × String)) (col : List Int) (code : Int),
        code ∈ col → mapping.lookup code = none →
        (toString code, (col.map (labelWithMapping mapping)).count (toString code))
            ∈ value_counts_labeled mapping col
          ∧ col.count code ≤ (col.map (labelWithMapping mapping)).count (toString code))
    ∧ (∀ (col : List Int) (code : Int),
        code ∈ col → MAP_SEXO.lookup code = none →
        ("Otro/NR", (col.map sexLabel).count "Otro/NR") ∈ sexo_counts_of col
          ∧ 0 < (col.map sexLabel).count "Otro/NR") := by
  constructor
  · intro mapping col code h1 h2
    have hl : labelWithMapping mapping code = toString code := by
      simp [labelWithMapping, h2]
    have hmem : toString code ∈ col.map (labelWithMapping mapping) := by
      rw [← hl]
      exact List.mem_map_of_mem _ h1
    refine ⟨mem_tallySortedByKey _ _ hmem, ?_⟩
    have := count_le_count_map (labelWithMapping mapping) code col
    rwa [hl] at this
  · intro col code h1 h2
    have hl : sexLabel code = "Otro/NR" := by
      simp [sexLabel, h2]
    have hmem : "Otro/NR" ∈ col.map sexLabel := by
      rw [← hl]
      exact List.mem_map_of_mem _ h1
    refine ⟨?_, List.count_pos_iff.2 hmem⟩
    exact (mem_sortLe _ _ _).2 (mem_tallySortedByKey _ _ hmem)

/-- C2 (witness): the amended theorem applied to an education column `[8]`
(code 8 outside `MAP_NIVEL_ED`) and a sex column `[3]` (code 3 outside
`MAP_SEXO`). -/
theorem out_of_domain_codes_preserved_except_sexo_witness :
    ("8", 1) ∈ value_counts_labeled MAP_NIVEL_ED [8]
    ∧ ("Otro/NR", 1) ∈ sexo_counts_of [3] :=
  ⟨(out_of_domain_codes_preserved_except_sexo.1 MAP_NIVEL_ED [8] 8
      (by decide) (by decide)).1,
   (out_of_domain_codes_preserved_except_sexo.2 [3] 3
      (by decide) (by decide)).1⟩

/-! ### C3 — narrative sentence inclusion -/

set_option maxRecDepth 8000 in
/-- C3 (counterexample): on an empty table with no columns, neither the sex
field nor the activity field resolves (`sexo_counts` and `actividad_counts`
are `None`), yet `build_conclusions` still emits the sex-composition and
activity-status sentences, rendered with 0.0% shares — they are not omitted
as the claim states. -/
theorem sexo_and_actividad_lines_unconditional :
    (analyze_individuals ⟨0, []⟩).sexo_counts = none
    ∧ (analyze_individuals ⟨0, []⟩).actividad_counts = none
    ∧ build_conclusions_lines (analyze_households ⟨0, []⟩) (analyze_individuals ⟨0, []⟩)
        ⟨none, none⟩ =
      [intro_line,
       "En el s/dº trimestre de s/d se procesaron 0 hogares y 0 individuos.",
       "La estructura por sexo es relativamente equilibrada: 0.0% mujeres y 0.0% varones, sin desbalances extremos a nivel agregado.",
       "En el mercado de trabajo, se observa una tasa relativa de ocupación aproximada de 0.0%, desocupación de 0.0% e inactividad de 0.0%. Estos valores orientan la priorización de programas de empleabilidad y formación.",
       recomendaciones_line] := by
  refine ⟨by decide, by decide, by decide⟩

/-- C3 (amended): the sex-composition and activity-status sentences are
emitted unconditionally (with shares computed over the empty tally, i.e.
0.0%, when their field did not resolve); the age-bracket, education-level
and technology sentences are emitted exactly when their condition holds
(nonempty tramos dict, nonempty education dict, `tic` sub-dict present with
a nonempty internet counts dict), as the line count shows. -/
theorem build_conclusions_sentence_inclusion :
    ∀ (hog_res : HogRes) (ind_res : IndRes) (meta : Meta),
      sexo_line (share_of (ind_res.sexo_counts.getD []) "Mujer")
          (share_of (ind_res.sexo_counts.getD []) "Varón")
        ∈ build_conclusions_lines hog_res ind_res meta
      ∧ actividad_line (share_of (ind_res.actividad_counts.getD []) "Ocupado/a")
          (share_of (ind_res.actividad_counts.getD []) "Desocupado/a")
          (share_of (ind_res.actividad_counts.getD []) "Inactivo/a")
        ∈ build_conclusions_lines hog_res ind_res meta
      ∧ (∀ t, argmaxFirst (ind_res.edad_tramos.getD []) = some t →
          edad_line t ∈ build_conclusions_lines hog_res ind_res meta)
      ∧ (∀ e, argmaxFirst (ind_res.nivel_educativo_counts.getD []) = some e →
          educ_line e ∈ build_conclusions_lines hog_res ind_res meta)
      ∧ (∀ tic u, ind_res.tic = some tic → tic.uso_internet_counts = some u → u ≠ [] →
          tic_line (share_of u "Sí") ∈ build_conclusions_lines hog_res ind_res meta)
      ∧ (build_conclusions_lines hog_res ind_res meta).length =
          5 + (if (argmaxFirst (ind_res.edad_tramos.getD [])).isSome then 1 else 0)
            + (if (argmaxFirst (ind_res.nivel_educativo_counts.getD [])).isSome then 1 else 0)
            + (match ind_res.tic with
               | some tic =>
                 match tic.uso_internet_counts with
                 | some u => if u.isEmpty then 0 else 1
                 | none => 0
               | none => 0) := by
  intro hog_res ind_res meta
  refine ⟨?_, ?_, ?_, ?_, ?_, ?_⟩
  · simp only [build_conclusions_lines]
    exact List.mem_append_left _ (List.mem_append_left _ (List.mem_append_left _
      (List.mem_append_left _ (List.mem_append_left _
        (List.mem_cons_of_mem _ (List.mem_cons_of_mem _ (List.mem_cons_self _ _)))))))
  · simp only [build_conclusions_lines]
    exact List.mem_append_left _ (List.mem_append_left _ (List.mem_append_right _
      (List.mem_cons_self _ _)))
  · intro t ht
    simp [build_conclusions_lines, ht]
  · intro e he
    simp [build_conclusions_lines, he]
  · intro tic u h1 h2 h3
    have h4 : u.isEmpty = false := by
      cases u with
      | nil => exact absurd rfl h3
      | cons p ps => rfl
    simp only [build_conclusions_lines, h1, h2, h4, Bool.false_eq_true, if_false]
    exact List.mem_append_left _ (List.mem_append_right _ (List.mem_cons_self _ _))
  · simp only [build_conclusions_lines]
    rcases htr : argmaxFirst (ind_res.edad_tramos.getD []) with _ | t <;>
      rcases hed : argmaxFirst (ind_res.nivel_educativo_counts.getD []) with _ | e <;>
      rcases htic : ind_res.tic with _ | tic
    case' some.some.some | some.none.some | none.some.some | none.none.some =>
      rcases hu : tic.uso_internet_counts with _ | u
    all_goals simp_all [List.length_append]
    all_goals (rcases hue : u.isEmpty <;> simp_all)

/-! ### C4 — delimiter sniffing -/

/-- C4 (counterexample): a first line `"a;b\tc"` ties semicolon and tab at
one occurrence each (comma at zero) — a tie among the candidates — and the
code selects `;`, not the comma the claim demands on every tie. -/
theorem sniff_sep_tie_not_comma :
    sniff_sep "a;b\tc\n1,2" = ';' ∧ sniff_sep "a;b\tc\n1,2" ≠ ',' := by
  refine ⟨by decide, by decide⟩

/-- Python's `max` over the four-candidate counts dict: the fold keeps the
earliest key unless a strictly greater count appears, so it returns the
first candidate whose count no later candidate exceeds. -/
theorem argmax4_first (a b c d : Nat) :
    (([(';', b), ('\t', c), ('|', d)].foldl
        (fun best q => if q.2 > best.2 then q else best) ((',', a) : Char × Nat))).1
      = (if b ≤ a ∧ c ≤ a ∧ d ≤ a then ','
         else if c ≤ b ∧ d ≤ b then ';'
         else if d ≤ c then '\t'
         else '|') := by
  simp only [List.foldl_cons, List.foldl_nil]
  split_ifs <;> simp_all <;> omega

/-- C4 (amended): the separator is chosen by counting the four candidate
characters on the first line only and taking the first candidate, in the
order comma, semicolon, tab, pipe, whose count is not exceeded by any later
candidate; comma therefore results when no candidate appears, and a tie is
broken in favour of the earliest candidate in that order (comma only when
comma attains the maximum).  A blob whose first line is `"a;b;c"` is parsed
with `;` even when commas appear in later lines. -/
theorem sniff_sep_first_argmax :
    (∀ text : String,
        sniff_sep text =
          (if (first_line text).data.count ';' ≤ (first_line text).data.count ','
              ∧ (first_line text).data.count '\t' ≤ (first_line text).data.count ','
              ∧ (first_line text).data.count '|' ≤ (first_line text).data.count ',' then ','
           else if (first_line text).data.count '\t' ≤ (first_line text).data.count ';'
              ∧ (first_line text).data.count '|' ≤ (first_line text).data.count ';' then ';'
           else if (first_line text).data.count '|' ≤ (first_line text).data.count '\t' then '\t'
           else '|'))
    ∧ sniff_sep "a;b;c\n1,2,3" = ';'
    ∧ sniff_sep "abc" = ',' := by
  refine ⟨?_, by decide, by decide⟩
  intro text
  have h := argmax4_first ((first_line text).data.count ',')
    ((first_line text).data.count ';') ((first_line text).data.count '\t')
    ((first_line text).data.count '|')
  simpa only [sniff_sep, sep_candidates, List.map_cons, List.map_nil] using h

/-! ### C5 — missing semantic columns -/

/-- C5: for any table in which a semantic field's column does not resolve,
the analyzers set every result entry of that field to `None` (the key is
present in the result), skip its computation, and — the Lean functions being
total — no exception propagates. -/
theorem analyze_missing_fields_null :
    (∀ df : Frame,
        (pick df Cols.SEXO = none → (analyze_individuals df).sexo_counts = none)
        ∧ (pick df Cols.EDAD = none →
            (analyze_individuals df).edad_media = none
            ∧ (analyze_individuals df).edad_p50 = none
            ∧ (analyze_individuals df).edad_tramos = none)
        ∧ (pick df Cols.NIVEL_ED = none → (analyze_individuals df).nivel_educativo_counts = none)
        ∧ (pick df Cols.COND_ACT = none → (analyze_individuals df).actividad_counts = none)
        ∧ (pick df Cols.TIC_PC = none → pick df Cols.TIC_INTERNET = none →
            (analyze_individuals df).tic = none))
    ∧ (∀ df : Frame, pick df ing_candidates = none →
        (analyze_households df).ingreso_hogar_media = none
        ∧ (analyze_households df).ingreso_hogar_p50 = none) := by
  constructor
  · intro df
    refine ⟨?_, ?_, ?_, ?_, ?_⟩
    · intro h; simp [analyze_individuals, h]
    · intro h; simp [analyze_individuals, h]
    · intro h; simp [analyze_individuals, h]
    · intro h; simp [analyze_individuals, h]
    · intro h h'; simp [analyze_individuals, h, h']
  · intro df h
    simp [analyze_households, h]

/-- C5 (witness): a table whose only column is named `FOO` resolves none of
the semantic fields, and every corresponding result entry is `None`. -/
theorem analyze_missing_fields_null_witness :
    (analyze_individuals ⟨2, [("FOO", [1, 2])]⟩).sexo_counts = none
    ∧ (analyze_individuals ⟨2, [("FOO", [1, 2])]⟩).edad_media = none
    ∧ (analyze_individuals ⟨2, [("FOO", [1, 2])]⟩).edad_tramos = none
    ∧ (analyze_individuals ⟨2, [("FOO", [1, 2])]⟩).nivel_educativo_counts = none
    ∧ (analyze_individuals ⟨2, [("FOO", [1, 2])]⟩).actividad_counts = none
    ∧ (analyze_individuals ⟨2, [("FOO", [1, 2])]⟩).tic = none
    ∧ (analyze_households ⟨2, [("FOO", [1, 2])]⟩).ingreso_hogar_media = none :=
  ⟨(analyze_missing_fields_null.1 _).1 (by decide),
   ((analyze_missing_fields_null.1 _).2.1 (by decide)).1,
   ((analyze_missing_fields_null.1 _).2.1 (by decide)).2.2,
   (analyze_missing_fields_null.1 _).2.2.1 (by decide),
   (analyze_missing_fields_null.1 _).2.2.2.1 (by decide),
   (analyze_missing_fields_null.1 _).2.2.2.2 (by decide) (by decide),
   (analyze_missing_fields_null.2 _ (by decide)).1⟩

/-! ### C6 — age example -/

set_option maxRecDepth 8000 in
/-- C6: for an age column `[2, 10, 40, 40, 90]` the Individual Analyzer
computes mean 36.4 (= 182/5), median 40, and the fixed-bucket tally
0-4 → 1, 5-12 → 1, 31-45 → 2, 75+ → 1 with every other bucket 0. -/
theorem edad_example_stats :
    (analyze_individuals ⟨5, [("CH06", [2, 10, 40, 40, 90])]⟩).edad_media = some (mkRat 182 5)
    ∧ (analyze_individuals ⟨5, [("CH06", [2, 10, 40, 40, 90])]⟩).edad_p50 = some (mkRat 40 1)
    ∧ mkRat 182 5 = (36.4 : Rat) ∧ mkRat 40 1 = (40 : Rat)
    ∧ (analyze_individuals ⟨5, [("CH06", [2, 10, 40, 40, 90])]⟩).edad_tramos =
        some [("0-4", 1), ("5-12", 1), ("13-18", 0), ("19-30", 0),
              ("31-45", 2), ("46-60", 0), ("61-75", 0), ("75+", 1)] := by
  refine ⟨by decide, by decide, by norm_num [Rat.mkRat_eq_div], by norm_num [Rat.mkRat_eq_div], by decide⟩

/-! ### C7 — education example -/

set_option maxRecDepth 8000 in
/-- C7: an education column with three 1s and seven 5s yields the labelled
counts Sin instrucción → 3 and Secundaria completa → 7 (and nothing else),
and the narrative's leading-level sentence names "Secundaria completa", the
label with the maximum count. -/
theorem nivel_example_counts_and_top :
    (analyze_individuals ⟨10, [("NIVEL_ED", [1, 1, 1, 5, 5, 5, 5, 5, 5, 5])]⟩).nivel_educativo_counts
        = some [("Secundaria completa", 7), ("Sin instrucción", 3)]
    ∧ educ_line "Secundaria completa" ∈
        build_conclusions_lines ⟨0, none, none⟩
          (analyze_individuals ⟨10, [("NIVEL_ED", [1, 1, 1, 5, 5, 5, 5, 5, 5, 5])]⟩)
          ⟨none, none⟩ := by
  refine ⟨by decide, by decide⟩

/-! ### C8 — period detection -/

set_option maxRecDepth 8000 in
/-- C8: the detected year is the mode of the coerced year column when one
resolves (`[2021, 2021, 2021, 2020]` gives 2021); with no year or quarter
column, the file name `"eph_ind_2019_3t.csv"` gives year 2019 and quarter 3;
and in general each component is the column mode when determined, otherwise
the file-name extraction, otherwise `None` — never any other source. -/
theorem detect_year_quarter_sources :
    (detect_year_quarter ⟨4, [("ANO4", [2021, 2021, 2021, 2020])]⟩ "").1 = some 2021
    ∧ detect_year_quarter ⟨0, []⟩ "eph_ind_2019_3t.csv" = (some 2019, some 3)
    ∧ ∀ (df : Frame) (name : String),
        detect_year_quarter df name =
          ((match (get_first_col df.columns year_aliases).bind (fun c => mode? (df.getCol c)) with
            | some y => some y
            | none => find_year_in_name name),
           (match (get_first_col df.columns quarter_aliases).bind (fun c => mode? (df.getCol c)) with
            | some q => some q
            | none => find_quarter_in_name name)) := by
  refine ⟨by decide, by decide, ?_⟩
  intro df name
  simp only [detect_year_quarter]
  rcases h1 : (get_first_col df.columns year_aliases).bind (fun c => mode? (df.getCol c)) with _ | y <;>
    rcases h2 : (get_first_col df.columns quarter_aliases).bind (fun c => mode? (df.getCol c)) with _ | q <;>
    simp [h1, h2]

/-! ### C9 — zero-row robustness -/

set_option maxRecDepth 8000 in
/-- C9: a zero-row table yields counts of 0 (`N_hogares`/`N_individuos` 0,
empty tallies) and `None` for every statistical field, without raising (the
functions are total), and the household report section renders each missing
numeric placeholder as the token `"s/d"`. -/
theorem zero_rows_robust :
    analyze_households ⟨0, [("ITF", [])]⟩ =
        { N_hogares := 0, ingreso_hogar_media := none, ingreso_hogar_p50 := none }
    ∧ (analyze_individuals ⟨0, [("CH04", []), ("CH06", [])]⟩).N_individuos = 0
    ∧ (analyze_individuals ⟨0, [("CH04", []), ("CH06", [])]⟩).edad_media = none
    ∧ (analyze_individuals ⟨0, [("CH04", []), ("CH06", [])]⟩).edad_p50 = none
    ∧ (analyze_individuals ⟨0, [("CH04", []), ("CH06", [])]⟩).sexo_counts = some []
    ∧ hog_section_lines (analyze_households ⟨0, [("ITF", [])]⟩) =
        ["Cantidad de hogares: 0",
         "Ingreso total del hogar (media): s/d",
         "Ingreso total del hogar (mediana): s/d"] := by
  refine ⟨by decide, by decide, by decide, by decide, by decide, by decide⟩

/-! ### C10 — report metadata year/quarter preference -/

/-- C10: the year and quarter placed in the report metadata come from the
household table's detection whenever that is determined, and from the
individuals table's detection only as a fallback; a determined household
value is never overridden. -/
theorem meta_prefers_household_detection :
    ∀ hy hq iy iq : Option Int,
      (∀ y, hy = some y → (combine_year_quarter (hy, hq) (iy, iq)).1 = some y)
      ∧ (hy = none → (combine_year_quarter (hy, hq) (iy, iq)).1 = iy)
      ∧ (∀ q, hq = some q → (combine_year_quarter (hy, hq) (iy, iq)).2 = some q)
      ∧ (hq = none → (combine_year_quarter (hy, hq) (iy, iq)).2 = iq) := by
  intro hy hq iy iq
  refine ⟨?_, ?_, ?_, ?_⟩
  · intro y h
    simp [combine_year_quarter, h]
  · intro h
    cases iy <;> simp [combine_year_quarter, h]
  · intro q h
    simp [combine_year_quarter, h]
  · intro h
    simp [combine_year_quarter, h]

/-- C10 (witness): with the household detection (2021, undetermined) and the
individuals detection (2020, quarter 2), the metadata keeps year 2021 from
the households and falls back to quarter 2 from the individuals. -/
theorem meta_prefers_household_detection_witness :
    (combine_year_quarter (some 2021, none) (some 2020, some 2)).1 = some 2021
    ∧ (combine_year_quarter (some 2021, none) (some 2020, some 2)).2 = some 2 :=
  ⟨(meta_prefers_household_detection (some 2021) none (some 2020) (some 2)).1 2021 rfl,
   (meta_prefers_household_detection (some 2021) none (some 2020) (some 2)).2.2.2 rfl⟩

/-- C3 (witness): the amended theorem applied at a result where every
optional field is present and nonempty — the age-bracket, education and
technology sentences all appear. -/
theorem build_conclusions_sentence_inclusion_witness :
    edad_line "0-4" ∈ build_conclusions_lines ⟨1, none, none⟩
        ⟨1, some [("Mujer", 1)], none, none, some [("0-4", 1)],
         some [("Sin instrucción", 1)], some [("Ocupado/a", 1)],
         some ⟨none, some [("Sí", 1)]⟩⟩ ⟨some 2021, some 3⟩
    ∧ educ_line "Sin instrucción" ∈ build_conclusions_lines ⟨1, none, none⟩
        ⟨1, some [("Mujer", 1)], none, none, some [("0-4", 1)],
         some [("Sin instrucción", 1)], some [("Ocupado/a", 1)],
         some ⟨none, some [("Sí", 1)]⟩⟩ ⟨some 2021, some 3⟩
    ∧ tic_line (share_of [("Sí", 1)] "Sí") ∈ build_conclusions_lines ⟨1, none, none⟩
        ⟨1, some [("Mujer", 1)], none, none, some [("0-4", 1)],
         some [("Sin instrucción", 1)], some [("Ocupado/a", 1)],
         some ⟨none, some [("Sí", 1)]⟩⟩ ⟨some 2021, some 3⟩ :=
  ⟨(build_conclusions_sentence_inclusion _ _ _).2.2.1 "0-4" (by decide),
   (build_conclusions_sentence_inclusion _ _ _).2.2.2.1 "Sin instrucción" (by decide),
   (build_conclusions_sentence_inclusion _ _ _).2.2.2.2.1 ⟨none, some [("Sí", 1)]⟩
     [("Sí", 1)] rfl rfl (by decide)⟩
